import Mathlib

/-!
# Verification of the BoundedDict range-keyed container

Shallow embedding of the two source files of the repository
(boundeddict/entry.py and boundeddict/__init__.py) over integer keys,
together with theorems settling the specification claims.

Conventions of the embedding:
* Keys are integers; values are a type parameter with decidable equality.
* A Python query/key argument (the thing passed to Entry.search,
  Entry.contains, BoundedDict.get/search) is modelled as a list of
  integers, so that the length-two validation performed by the source is
  observable; a well-formed range is a two-element list.
* A Python function that can raise is modelled in the Except monad.
  PyErr.valueError models the ValueError the source raises for malformed
  ranges (the InvalidRangeError kind of the specification);
  PyErr.typeError models the TypeError the interpreter raises, e.g. when
  an unhashable list is placed into a set.
* Python values returned by search are modelled by PyVal: Python None,
  a plain stored value, or a list of such results.
-/

/-- Error kinds raised by the modelled code: valueError models the
ValueError raised for malformed range arguments (the specification calls
this kind InvalidRangeError), typeError models the TypeError
raised by the interpreter, and attributeError models the AttributeError
the interpreter raises for an assignment to a property that has no
setter. -/
inductive PyErr where
  | valueError
  | typeError
  | attributeError
  deriving DecidableEq, Repr

/-- A Python value as produced by Entry.search and BoundedDict.search:
Python None, a stored value, or a list of results. -/
inductive PyVal (V : Type) where
  | none
  | val (v : V)
  | list (xs : List (PyVal V))
  deriving Repr

/-- Models Bound.__init__ (entry.py lines 39-48): the endpoints are stored
exactly as given; the constructor only type-checks that the lower endpoint
is comparable (always true for integers) and performs no swap. -/
structure Bound where
  lower_bound : Int
  upper_bound : Int
  deriving DecidableEq, Repr

/-- Models Bound.__contains__ (entry.py line 64-65):
lower_bound <= value <= upper_bound. -/
def Bound.containsPoint (b : Bound) (value : Int) : Bool :=
  b.lower_bound ≤ value ∧ value ≤ b.upper_bound

/-- Models Bound.intersects_on_left (entry.py line 94):
other.lower_bound <= self.upper_bound <= other.upper_bound. -/
def Bound.intersects_on_left (b other : Bound) : Bool :=
  other.lower_bound ≤ b.upper_bound ∧ b.upper_bound ≤ other.upper_bound

/-- Models Bound.intersects_on_right (entry.py line 119):
self.lower_bound <= other.lower_bound <= self.upper_bound. -/
def Bound.intersects_on_right (b other : Bound) : Bool :=
  b.lower_bound ≤ other.lower_bound ∧ other.lower_bound ≤ b.upper_bound

/-- Models Bound.intersects (entry.py line 148):
intersects_on_left or intersects_on_right. -/
def Bound.intersects (b other : Bound) : Bool :=
  b.intersects_on_left other || b.intersects_on_right other

/-- Models Bound.distance_from (entry.py line 154). -/
def Bound.distance_from (b : Bound) (lower_bound upper_bound : Int) : Int :=
  (lower_bound - b.lower_bound) + (b.upper_bound - upper_bound)

/-- Models the Entry object state (entry.py lines 169-175): a Bound, a
value and the (private) ordered list of children.  The source offers no
operation that appends a child, so an entry holding children is modelled
by building the state directly. -/
inductive Entry (V : Type) where
  | mk (bound : Bound) (value : V) (children : List (Entry V))

/-- The bounds property (entry.py lines 220-225). -/
def Entry.bounds {V : Type} : Entry V → Bound
  | .mk b _ _ => b

/-- The value property (entry.py lines 213-218). -/
def Entry.value {V : Type} : Entry V → V
  | .mk _ v _ => v

/-- The private children list (entry.py line 175). -/
def Entry.children {V : Type} : Entry V → List (Entry V)
  | .mk _ _ cs => cs

/-- The lower_bound property (entry.py lines 227-232). -/
def Entry.lower_bound {V : Type} (e : Entry V) : Int :=
  e.bounds.lower_bound

/-- The upper_bound property (entry.py lines 234-239). -/
def Entry.upper_bound {V : Type} (e : Entry V) : Int :=
  e.bounds.upper_bound

/-- Models Entry.__init__ (entry.py lines 169-175): reversed endpoints are
swapped before the Bound is built, and the children list starts empty. -/
def Entry.make {V : Type} (lower_bound upper_bound : Int) (value : V) : Entry V :=
  if lower_bound > upper_bound then
    .mk ⟨upper_bound, lower_bound⟩ value []
  else
    .mk ⟨lower_bound, upper_bound⟩ value []

/-- The containment test Entry.__contains__ performs once the argument
has been validated (entry.py lines 281-282): the raw first component must
be at least the lower bound of the entry and the raw second component at
most its upper bound; no normalization of the pair happens. -/
def Entry.containsPair {V : Type} (e : Entry V) (lo hi : Int) : Bool :=
  e.lower_bound ≤ lo ∧ hi ≤ e.upper_bound

/-- Models Entry.__contains__ (entry.py lines 274-282): a ValueError for
an argument that is not a two-element sequence, otherwise the raw
containment test. -/
def Entry.containsQ {V : Type} (e : Entry V) (bounds : List Int) : Except PyErr Bool :=
  match bounds with
  | [lo, hi] => .ok (e.containsPair lo hi)
  | _ => .error .valueError

/-- Models the hashing step that happens when a search result is placed
into the set built by the candidate comprehension (entry.py lines
261-265): Python None and plain values are hashable, a list is not and
makes the interpreter raise TypeError.  A hashable result is represented
as an Option of the stored value type (Option.none for Python None). -/
def toHashable {V : Type} : PyVal V → Except PyErr (Option V)
  | .list _ => .error .typeError
  | .none => .ok Option.none
  | .val v => .ok (Option.some v)

/-- Hashing of a whole result list in iteration order, stopping at the
first unhashable element exactly as the set comprehension of entry.py
lines 261-265 would. -/
def toHashableList {V : Type} : List (PyVal V) → Except PyErr (List (Option V))
  | [] => .ok []
  | r :: rs =>
    match toHashable r with
    | .error e => .error e
    | .ok h =>
      match toHashableList rs with
      | .error e => .error e
      | .ok hs => .ok (h :: hs)

/-- Inverse of toHashable on hashable results. -/
def ofHashable {V : Type} : Option V → PyVal V
  | Option.none => .none
  | Option.some v => .val v

/-- Helper for pydedup: keeps the elements not seen before. -/
def pydedupAux {α : Type} [DecidableEq α] : List α → List α → List α
  | _, [] => []
  | seen, a :: rest =>
    if a ∈ seen then pydedupAux seen rest else a :: pydedupAux (a :: seen) rest

/-- Models the deduplication performed by list applied to the set built in
entry.py lines 261-265.  The element content is exactly that of the
CPython set; the order in which CPython enumerates a set depends on the
element hashes (randomized per process for strings) and is in general
neither the insertion order nor any order derivable here, so this model
fixes the first-insertion order and no theorem below relies on the order
being the one CPython would produce. -/
def pydedup {α : Type} [DecidableEq α] (l : List α) : List α :=
  pydedupAux [] l

mutual

/-- Models Entry.search (entry.py lines 248-272), the only search body the
decorator machinery leaves on the class: validate that the argument is a
two-element sequence (else ValueError), test raw containment via
Entry.__contains__ (no normalization of the pair), collect into a set the
results of searching every child whose bound contains the query, and
return the lone distinct candidate, the list of distinct candidates, or
the own value when no child matched. -/
def Entry.search {V : Type} [DecidableEq V] : Entry V → List Int → Except PyErr (PyVal V)
  | .mk b v cs, bounds =>
    match bounds with
    | [lo, hi] =>
      if b.lower_bound ≤ lo ∧ hi ≤ b.upper_bound then
        match Entry.searchChildren cs bounds lo hi with
        | .error e => .error e
        | .ok results =>
          match toHashableList results with
          | .error e => .error e
          | .ok hs =>
            match pydedup hs with
            | [] => .ok (.val v)
            | [c] => .ok (ofHashable c)
            | c1 :: c2 :: rest => .ok (.list ((c1 :: c2 :: rest).map ofHashable))
      else .ok .none
    | _ => .error .valueError

/-- Models the generator part of the candidate comprehension (entry.py
lines 261-265): iterate the children in list order, keep those whose
bound contains the raw query pair, and collect their search results,
propagating any error they raise. -/
def Entry.searchChildren {V : Type} [DecidableEq V] : List (Entry V) → List Int → Int → Int → Except PyErr (List (PyVal V))
  | [], _, _, _ => .ok []
  | c :: rest, bounds, lo, hi =>
    if c.containsPair lo hi then
      match Entry.search c bounds with
      | .error e => .error e
      | .ok r =>
        match Entry.searchChildren rest bounds lo hi with
        | .error e => .error e
        | .ok rs => .ok (r :: rs)
    else Entry.searchChildren rest bounds lo hi

end

/-- The body of Entry.set after normalization (entry.py lines 210-211).
On an exact endpoint match the source executes an assignment to the
value attribute; but value is declared as a getter-only property
(entry.py lines 213-218) and the class has no setter for it, so that
assignment raises AttributeError at runtime and the stored value is
never replaced.  On a non-matching target the function falls through
with the entry untouched and returns None (it has no return
statement). -/
def Entry.setExact {V : Type} (e : Entry V) (lo hi : Int) (_value : V) : Except PyErr (Entry V × PyVal V) :=
  if e.lower_bound = lo ∧ e.upper_bound = hi then
    .error .attributeError
  else
    .ok (e, .none)

/-- Models Entry.set (entry.py lines 203-211), the only set body the
decorator machinery leaves on the class: its runtime signature takes the
two endpoints and the value as three separate arguments and swaps the
endpoints when given reversed; the exact-match branch then raises
AttributeError, because the assignment at line 211 targets the
getter-only value property, and the non-matching branch does nothing
and returns None.  The method can therefore never actually replace a
value, although its docstring says it sets the value on this entry. -/
def Entry.set {V : Type} (e : Entry V) (lower_bound upper_bound : Int) (value : V) : Except PyErr (Entry V × PyVal V) :=
  if lower_bound > upper_bound then
    e.setExact upper_bound lower_bound value
  else
    e.setExact lower_bound upper_bound value

/-- Models the call shape the specification uses for Entry.set, namely
passing a bound sequence together with a value.  The only set
implementation on the class at runtime is the three-argument
set(self, lower_bound, upper_bound, value) of entry.py lines 203-211;
the two bodies written under the typing.overload decorator at lines
177-201 are discarded by that decorator and can never execute.  A call
supplying a bound sequence and a value therefore binds the sequence to
lower_bound and the value to upper_bound and leaves the value parameter
missing, so the interpreter raises TypeError before the body runs; no
range validation exists on this path (and the body of set performs none
either), so no input ever produces the ValueError that contains and
search raise for malformed ranges. -/
def Entry.setBound {V : Type} (_ : Entry V) (_ : List Int) (_ : V) : Except PyErr (Entry V × PyVal V) :=
  .error .typeError

/-- Python truthiness of a stored value, needed because
BoundedDict.search tests a found value with a bare if (init file line
78). -/
class PyTruthy (V : Type) where
  truthy : V → Bool

instance : PyTruthy Int := ⟨fun v => decide (v ≠ 0)⟩

instance : PyTruthy String := ⟨fun s => decide (s ≠ "")⟩

/-- Truthiness of a search result: Python None and the empty list are
falsy, a nonempty list is truthy, a plain value follows the truthiness of
the value type. -/
def PyVal.truthy {V : Type} [PyTruthy V] : PyVal V → Bool
  | .none => false
  | .val v => PyTruthy.truthy v
  | .list xs => !xs.isEmpty

/-- Models the BoundedDict state (init file lines 22-23): the private
insertion-ordered list of top-level entries. -/
structure BoundedDict (V : Type) where
  entries : List (Entry V)

/-- Models the loop of BoundedDict.search (init file lines 76-81): try
each top-level entry in order, return the first search result that is
truthy, propagate a raised error, and fall back to the caller-supplied
default when every result is falsy. -/
def searchEntries {V : Type} [DecidableEq V] [PyTruthy V] : List (Entry V) → List Int → PyVal V → Except PyErr (PyVal V)
  | [], _, default => .ok default
  | e :: rest, key, default =>
    match e.search key with
    | .error err => .error err
    | .ok r => if r.truthy then .ok r else searchEntries rest key default

/-- Models BoundedDict.search (init file lines 66-81): validate that the
key is a two-element sequence, then run the entry loop. -/
def BoundedDict.search {V : Type} [DecidableEq V] [PyTruthy V] (d : BoundedDict V) (key : List Int) (default : PyVal V) : Except PyErr (PyVal V) :=
  match key with
  | [_, _] => searchEntries d.entries key default
  | _ => .error .valueError

/-- Models BoundedDict.get (init file lines 25-32): validate the key and
delegate to search with the caller-supplied default. -/
def BoundedDict.get {V : Type} [DecidableEq V] [PyTruthy V] (d : BoundedDict V) (key : List Int) (default : PyVal V) : Except PyErr (PyVal V) :=
  match key with
  | [_, _] => d.search key default
  | _ => .error .valueError

/-- The single-refinement example of the specification: an entry for the
range 0 to 100 with value default and one child for 10 to 20 with value
special. -/
def exC1 : Entry String :=
  .mk ⟨0, 100⟩ "default" [.mk ⟨10, 20⟩ "special" []]

/-- The ambiguity example of the specification: an entry for 0 to 100
with two overlapping children, 0 to 50 with value A and 10 to 60 with
value B. -/
def exC2 : Entry String :=
  .mk ⟨0, 100⟩ "default" [.mk ⟨0, 50⟩ "A" [], .mk ⟨10, 60⟩ "B" []]

/-- A childless entry for the range 0 to 15, used to separate a reversed
query from its normalized form. -/
def exC3 : Entry String :=
  .mk ⟨0, 15⟩ "v" []

/-- The exact-match set example of the specification: an entry for 0 to
10 with value x. -/
def exC6 : Entry String :=
  .mk ⟨0, 10⟩ "x" []

/-- An entry whose own search is ambiguous: range 0 to 90 with two
overlapping children 0 to 50 and 10 to 60 carrying distinct values. -/
def exC10child : Entry String :=
  .mk ⟨0, 90⟩ "A" [.mk ⟨0, 50⟩ "X" [], .mk ⟨10, 60⟩ "Y" []]

/-- A root entry for 0 to 100 whose only child is the ambiguous entry
exC10child, so that the ambiguity arises among grandchildren. -/
def exC10 : Entry String :=
  .mk ⟨0, 100⟩ "R" [exC10child]

/-- A dictionary holding a single top-level entry for 0 to 10 whose
stored value is the integer 0, which Python treats as falsy. -/
def exC9 : BoundedDict Int :=
  ⟨[.mk ⟨0, 10⟩ 0 []]⟩

theorem Entry.search_eq_if {V : Type} [DecidableEq V] (b : Bound) (v : V) (cs : List (Entry V)) (lo hi : Int) :
    Entry.search (.mk b v cs) [lo, hi] =
      if b.lower_bound ≤ lo ∧ hi ≤ b.upper_bound then
        match Entry.searchChildren cs [lo, hi] lo hi with
        | .error e => .error e
        | .ok results =>
          match toHashableList results with
          | .error e => .error e
          | .ok hs =>
            match pydedup hs with
            | [] => .ok (.val v)
            | [c] => .ok (ofHashable c)
            | c1 :: c2 :: rest => .ok (.list ((c1 :: c2 :: rest).map ofHashable))
      else .ok .none := rfl

theorem Entry.searchChildren_cons {V : Type} [DecidableEq V] (c : Entry V) (rest : List (Entry V)) (bounds : List Int) (lo hi : Int) :
    Entry.searchChildren (c :: rest) bounds lo hi =
      if c.containsPair lo hi then
        match Entry.search c bounds with
        | .error e => .error e
        | .ok r =>
          match Entry.searchChildren rest bounds lo hi with
          | .error e => .error e
          | .ok rs => .ok (r :: rs)
      else Entry.searchChildren rest bounds lo hi := rfl

theorem searchChildren_nil_of_no_match {V : Type} [DecidableEq V] (cs : List (Entry V)) (bounds : List Int) (lo hi : Int)
    (h : ∀ c ∈ cs, c.containsPair lo hi = false) :
    Entry.searchChildren cs bounds lo hi = .ok [] := by
  induction cs with
  | nil => rfl
  | cons c rest ih =>
    rw [Entry.searchChildren_cons, h c (by simp)]
    simp only [Bool.false_eq_true, if_false]
    exact ih fun d hd => h d (by simp [hd])

theorem search_not_contained {V : Type} [DecidableEq V] (b : Bound) (v : V) (cs : List (Entry V)) (lo hi : Int)
    (h : ¬ (b.lower_bound ≤ lo ∧ hi ≤ b.upper_bound)) :
    Entry.search (.mk b v cs) [lo, hi] = .ok .none := by
  rw [Entry.search_eq_if, if_neg h]

theorem search_fallback {V : Type} [DecidableEq V] (b : Bound) (v : V) (cs : List (Entry V)) (lo hi : Int)
    (hc : b.lower_bound ≤ lo ∧ hi ≤ b.upper_bound)
    (h : ∀ c ∈ cs, c.containsPair lo hi = false) :
    Entry.search (.mk b v cs) [lo, hi] = .ok (.val v) := by
  rw [Entry.search_eq_if, if_pos hc, searchChildren_nil_of_no_match cs [lo, hi] lo hi h]
  rfl

theorem search_single_candidate {V : Type} [DecidableEq V] (b : Bound) (v : V) (cs : List (Entry V)) (lo hi : Int)
    (results : List (PyVal V)) (hs : List (Option V)) (w : V)
    (hc : b.lower_bound ≤ lo ∧ hi ≤ b.upper_bound)
    (h1 : Entry.searchChildren cs [lo, hi] lo hi = .ok results)
    (h2 : toHashableList results = .ok hs)
    (h3 : pydedup hs = [Option.some w]) :
    Entry.search (.mk b v cs) [lo, hi] = .ok (.val w) := by
  rw [Entry.search_eq_if, if_pos hc, h1]
  simp only [h2, h3]
  rfl

theorem search_multi_candidates {V : Type} [DecidableEq V] (b : Bound) (v : V) (cs : List (Entry V)) (lo hi : Int)
    (results : List (PyVal V)) (hs : List (Option V)) (c1 c2 : Option V) (rest : List (Option V))
    (hc : b.lower_bound ≤ lo ∧ hi ≤ b.upper_bound)
    (h1 : Entry.searchChildren cs [lo, hi] lo hi = .ok results)
    (h2 : toHashableList results = .ok hs)
    (h3 : pydedup hs = c1 :: c2 :: rest) :
    Entry.search (.mk b v cs) [lo, hi] = .ok (.list ((c1 :: c2 :: rest).map ofHashable)) := by
  rw [Entry.search_eq_if, if_pos hc, h1]
  simp only [h2, h3]

theorem toHashableList_error {V : Type} (rs : List (PyVal V)) (err : PyErr)
    (h : toHashableList rs = .error err) : err = .typeError := by
  induction rs with
  | nil => simp [toHashableList] at h
  | cons r rest ih =>
    rw [toHashableList] at h
    cases hr : toHashable r with
    | error e =>
      rw [hr] at h
      cases r <;> simp [toHashable] at hr
      simp_all
    | ok hv =>
      rw [hr] at h
      cases hrest : toHashableList rest with
      | error e => rw [hrest] at h; simp at h; subst h; exact ih hrest
      | ok hs => rw [hrest] at h; simp at h

theorem searchChildren_error_mem {V : Type} [DecidableEq V] (cs : List (Entry V)) (bounds : List Int) (lo hi : Int) (err : PyErr)
    (h : Entry.searchChildren cs bounds lo hi = .error err) :
    ∃ c ∈ cs, Entry.search c bounds = .error err := by
  induction cs with
  | nil => simp [Entry.searchChildren] at h
  | cons c rest ih =>
    rw [Entry.searchChildren_cons] at h
    by_cases hcont : c.containsPair lo hi
    · rw [if_pos hcont] at h
      cases hc : Entry.search c bounds with
      | error e =>
        rw [hc] at h
        simp at h
        exact ⟨c, by simp, by rw [hc, h]⟩
      | ok r =>
        rw [hc] at h
        cases hrest : Entry.searchChildren rest bounds lo hi with
        | error e =>
          rw [hrest] at h
          simp at h
          obtain ⟨d, hd, hds⟩ := ih (by rw [hrest, h])
          exact ⟨d, by simp [hd], hds⟩
        | ok rs => rw [hrest] at h; simp at h
    · rw [if_neg hcont] at h
      obtain ⟨d, hd, hds⟩ := ih h
      exact ⟨d, by simp [hd], hds⟩

theorem sizeOf_child_lt {V : Type} (b : Bound) (v : V) (cs : List (Entry V)) (c : Entry V)
    (h : c ∈ cs) : sizeOf c < sizeOf (Entry.mk b v cs) := by
  have := List.sizeOf_lt_of_mem h
  simp only [Entry.mk.sizeOf_spec]
  omega

theorem search_error_eq_typeError {V : Type} [DecidableEq V] :
    ∀ (n : Nat) (e : Entry V), sizeOf e ≤ n → ∀ (lo hi : Int) (err : PyErr),
      Entry.search e [lo, hi] = .error err → err = .typeError := by
  intro n
  induction n with
  | zero =>
    intro e he
    exfalso
    obtain ⟨b, v, cs⟩ := e
    simp only [Entry.mk.sizeOf_spec] at he
    omega
  | succ n ih =>
    intro e he lo hi err h
    obtain ⟨b, v, cs⟩ := e
    rw [Entry.search_eq_if] at h
    by_cases hc : b.lower_bound ≤ lo ∧ hi ≤ b.upper_bound
    · rw [if_pos hc] at h
      cases hsc : Entry.searchChildren cs [lo, hi] lo hi with
      | error e0 =>
        rw [hsc] at h
        simp at h
        subst h
        obtain ⟨c, hcm, hcs⟩ := searchChildren_error_mem cs [lo, hi] lo hi e0 hsc
        have hlt := sizeOf_child_lt b v cs c hcm
        exact ih c (by omega) lo hi e0 hcs
      | ok results =>
        rw [hsc] at h
        dsimp only at h
        cases hth : toHashableList results with
        | error e0 =>
          rw [hth] at h
          simp at h
          subst h
          exact toHashableList_error results e0 hth
        | ok hs =>
          rw [hth] at h
          dsimp only at h
          rcases hd : pydedup hs with _ | ⟨c1, _ | ⟨c2, rest⟩⟩ <;> rw [hd] at h <;> simp at h
    · rw [if_neg hc] at h
      simp at h

theorem search_no_valueError {V : Type} [DecidableEq V] (e : Entry V) (lo hi : Int) :
    Entry.search e [lo, hi] ≠ .error .valueError := by
  intro h
  exact PyErr.noConfusion (search_error_eq_typeError (sizeOf e) e le_rfl lo hi .valueError h)

theorem searchEntries_cons {V : Type} [DecidableEq V] [PyTruthy V] (e : Entry V) (rest : List (Entry V)) (key : List Int) (default : PyVal V) :
    searchEntries (e :: rest) key default =
      match e.search key with
      | .error err => .error err
      | .ok r => if r.truthy then .ok r else searchEntries rest key default := rfl

/-- Claim C1: for every entry, Entry.search resolves by refinement with
parent fallback: a query outside the own bound yields no match, a query
inside the own bound but inside no child yields the own value, and a
lone distinct child candidate is returned as the value; on the concrete
entry for 0 to 100 valued default with one child 10 to 20 valued
special, searching (12,15) gives special, searching (50,60) gives
default, and searching (200,210) gives no match. -/
theorem c1_search_refines_with_parent_fallback :
    (∀ (b : Bound) (v : String) (cs : List (Entry String)) (lo hi : Int),
        ¬ (b.lower_bound ≤ lo ∧ hi ≤ b.upper_bound) →
        (Entry.mk b v cs).search [lo, hi] = .ok .none) ∧
    (∀ (b : Bound) (v : String) (cs : List (Entry String)) (lo hi : Int),
        b.lower_bound ≤ lo ∧ hi ≤ b.upper_bound →
        (∀ c ∈ cs, c.containsPair lo hi = false) →
        (Entry.mk b v cs).search [lo, hi] = .ok (.val v)) ∧
    (∀ (b : Bound) (v : String) (cs : List (Entry String)) (lo hi : Int)
        (results : List (PyVal String)) (hs : List (Option String)) (w : String),
        b.lower_bound ≤ lo ∧ hi ≤ b.upper_bound →
        Entry.searchChildren cs [lo, hi] lo hi = .ok results →
        toHashableList results = .ok hs →
        pydedup hs = [Option.some w] →
        (Entry.mk b v cs).search [lo, hi] = .ok (.val w)) ∧
    exC1.search [12, 15] = .ok (.val "special") ∧
    exC1.search [50, 60] = .ok (.val "default") ∧
    exC1.search [200, 210] = .ok .none :=
  ⟨search_not_contained, search_fallback, search_single_candidate, rfl, rfl, rfl⟩

/-- Witness for claim C1: each general clause applied at a concrete
entry with one child. -/
theorem c1_witness :
    (Entry.mk ⟨0, 100⟩ "w" [Entry.mk ⟨30, 40⟩ "x" []]).search [200, 210] = .ok .none ∧
    (Entry.mk ⟨0, 100⟩ "w" [Entry.mk ⟨30, 40⟩ "x" []]).search [50, 60] = .ok (.val "w") ∧
    (Entry.mk ⟨0, 100⟩ "w" [Entry.mk ⟨30, 40⟩ "x" []]).search [32, 35] = .ok (.val "x") :=
  ⟨c1_search_refines_with_parent_fallback.1 ⟨0, 100⟩ "w" [Entry.mk ⟨30, 40⟩ "x" []] 200 210 (by decide),
   c1_search_refines_with_parent_fallback.2.1 ⟨0, 100⟩ "w" [Entry.mk ⟨30, 40⟩ "x" []] 50 60 (by decide) (by decide),
   c1_search_refines_with_parent_fallback.2.2.1 ⟨0, 100⟩ "w" [Entry.mk ⟨30, 40⟩ "x" []] 32 35
     [.val "x"] [Option.some "x"] "x" (by decide) rfl rfl rfl⟩

/-- Claim C2: when the children produce more than one distinct candidate
value, Entry.search returns the whole collection of distinct candidates
rather than an arbitrary single pick; on the entry 0 to 100 with
overlapping children 0 to 50 valued A and 10 to 60 valued B, searching
(20,30) returns a two-element collection containing both A and B. -/
theorem c2_ambiguity_returned_as_collection :
    (∀ (b : Bound) (v : String) (cs : List (Entry String)) (lo hi : Int)
        (results : List (PyVal String)) (hs : List (Option String))
        (c1 c2 : Option String) (rest : List (Option String)),
        b.lower_bound ≤ lo ∧ hi ≤ b.upper_bound →
        Entry.searchChildren cs [lo, hi] lo hi = .ok results →
        toHashableList results = .ok hs →
        pydedup hs = c1 :: c2 :: rest →
        (Entry.mk b v cs).search [lo, hi] = .ok (.list ((c1 :: c2 :: rest).map ofHashable))) ∧
    (∃ l, exC2.search [20, 30] = .ok (.list l) ∧ l.length = 2 ∧
        PyVal.val "A" ∈ l ∧ PyVal.val "B" ∈ l) := by
  refine ⟨search_multi_candidates, [.val "A", .val "B"], rfl, rfl, ?_, ?_⟩ <;> simp

/-- Witness for claim C2: the general ambiguity clause applied at a
concrete entry with two overlapping children. -/
theorem c2_witness :
    (Entry.mk ⟨0, 100⟩ "d" [Entry.mk ⟨0, 50⟩ "p" [], Entry.mk ⟨10, 60⟩ "q" []]).search [20, 30]
      = .ok (.list [.val "p", .val "q"]) :=
  c2_ambiguity_returned_as_collection.1 ⟨0, 100⟩ "d"
    [Entry.mk ⟨0, 50⟩ "p" [], Entry.mk ⟨10, 60⟩ "q" []] 20 30
    [.val "p", .val "q"] [Option.some "p", Option.some "q"]
    (Option.some "p") (Option.some "q") [] (by decide) rfl rfl rfl

/-- Counterexample for claim C3: on the childless entry for 0 to 15 the
reversed query (20,12) is accepted and resolves to the value while the
normalized query (12,20) yields no match, so search of a reversed pair
does not behave identically to search of the normalized pair. -/
theorem c3_counterexample : exC3.search [20, 12] ≠ exC3.search [12, 20] := by
  have h1 : exC3.search [20, 12] = .ok (.val "v") := rfl
  have h2 : exC3.search [12, 20] = .ok .none := rfl
  rw [h1, h2]
  simp

/-- Claim C3 amended: Entry.search applies no normalization to the query
pair; containment is tested on the pair exactly as given, so the query
fails with no match precisely by the raw test, a childless contained
entry returns its value for the raw pair, and the reversed query (20,12)
gives a different result from (12,20) on the entry for 0 to 15. -/
theorem c3_search_uses_raw_query_pair :
    (∀ (b : Bound) (v : String) (cs : List (Entry String)) (q0 q1 : Int),
        ¬ (b.lower_bound ≤ q0 ∧ q1 ≤ b.upper_bound) →
        (Entry.mk b v cs).search [q0, q1] = .ok .none) ∧
    (∀ (b : Bound) (v : String) (q0 q1 : Int),
        b.lower_bound ≤ q0 ∧ q1 ≤ b.upper_bound →
        (Entry.mk b v []).search [q0, q1] = .ok (.val v)) ∧
    exC3.search [20, 12] = .ok (.val "v") ∧
    exC3.search [12, 20] = .ok .none := by
  refine ⟨search_not_contained, ?_, rfl, rfl⟩
  intro b v q0 q1 h
  exact search_fallback b v [] q0 q1 h (by simp)

/-- Witness for claim C3: the two general clauses applied at the entry
for 0 to 15 with a query outside the bound and with the raw reversed
pair (20,12), which passes the raw containment test. -/
theorem c3_witness :
    (Entry.mk ⟨0, 15⟩ "w" []).search [-5, 3] = .ok .none ∧
    (Entry.mk ⟨0, 15⟩ "w" []).search [20, 12] = .ok (.val "w") :=
  ⟨c3_search_uses_raw_query_pair.1 ⟨0, 15⟩ "w" [] (-5) 3 (by decide),
   c3_search_uses_raw_query_pair.2.1 ⟨0, 15⟩ "w" 20 12 (by decide)⟩

/-- Counterexample for claim C4: a Bound constructed directly with the
reversed endpoints 5 and 2 stores them as given, so its lower bound
exceeds its upper bound. -/
theorem c4_counterexample :
    ¬ ((Bound.mk 5 2).lower_bound ≤ (Bound.mk 5 2).upper_bound) := by decide

/-- Claim C4 amended: the Bound that a new Entry builds from its
endpoint pair always satisfies lower at most upper, because Entry
construction swaps reversed endpoints, but direct Bound construction
stores the endpoints exactly as given without swapping. -/
theorem c4_entry_normalizes_direct_bound_does_not :
    (∀ (lo hi : Int) (v : String),
        (Entry.make lo hi v).lower_bound ≤ (Entry.make lo hi v).upper_bound) ∧
    (∀ (lo hi : Int), (Bound.mk lo hi).lower_bound = lo ∧ (Bound.mk lo hi).upper_bound = hi) := by
  constructor
  · intro lo hi v
    unfold Entry.make
    split <;> simp [Entry.lower_bound, Entry.upper_bound, Entry.bounds] <;> omega
  · intro lo hi
    exact ⟨rfl, rfl⟩

/-- Claim C5 (code bug): Bound.intersects misses the overlap
configuration in which the other interval overhangs on the left.
Bound(4,7) and Bound(0,5) both contain the point 4, and the docstring of
intersects in entry.py asserts that this very pair intersects, yet the
function returns false; the exact-equality configuration does hold. -/
theorem c5_intersects_misses_left_overlap :
    (Bound.mk 4 7).intersects (Bound.mk 0 5) = false ∧
    (Bound.mk 4 7).containsPoint 4 = true ∧
    (Bound.mk 0 5).containsPoint 4 = true ∧
    (Bound.mk 2 6).intersects (Bound.mk 2 6) = true := by decide

/-- Claim C6 (code bug): Entry.set does normalize its target, and a
non-matching target leaves the entry untouched with a silent None
return; but the exact-match branch can never replace the value: the
assignment at entry.py line 211 targets the getter-only value property,
so the call raises AttributeError, contradicting the docstring of set
and the claimed replacement.  On the entry for 0 to 10 valued x, the
exact-match call set (0,10) and its swapped form both raise
AttributeError, while the non-matching call set (0,5) returns None with
the entry unchanged and no not-found report. -/
theorem c6_set_raises_attribute_error :
    exC6.set 0 10 "y" = .error .attributeError ∧
    exC6.set 10 0 "y" = .error .attributeError ∧
    exC6.set 0 5 "y" = .ok (exC6, PyVal.none) ∧
    (∀ (e : Entry String) (a b : Int) (v : String), e.set a b v = e.set b a v) ∧
    (∀ (e : Entry String) (lo hi : Int) (v : String),
        lo ≤ hi → ¬ (e.lower_bound = lo ∧ e.upper_bound = hi) →
        e.set lo hi v = .ok (e, PyVal.none)) ∧
    (∀ (b : Bound) (v0 : String) (cs : List (Entry String)) (v : String),
        b.lower_bound ≤ b.upper_bound →
        (Entry.mk b v0 cs).set b.lower_bound b.upper_bound v = .error .attributeError) := by
  refine ⟨rfl, rfl, rfl, ?_, ?_, ?_⟩
  · intro e a b v
    unfold Entry.set
    rcases lt_trichotomy a b with h | h | h
    · rw [if_neg (by omega : ¬ a > b), if_pos (by omega : b > a)]
    · subst h
      rfl
    · rw [if_pos (by omega : a > b), if_neg (by omega : ¬ b > a)]
  · intro e lo hi v h1 h2
    unfold Entry.set
    rw [if_neg (by omega : ¬ lo > hi)]
    unfold Entry.setExact
    rw [if_neg h2]
  · intro b v0 cs v h
    unfold Entry.set
    rw [if_neg (by omega : ¬ b.lower_bound > b.upper_bound)]
    unfold Entry.setExact
    rw [if_pos ⟨rfl, rfl⟩]

/-- Witness for claim C6: the no-op clause and the exact-match clause
applied at concrete entries. -/
theorem c6_witness :
    (Entry.mk ⟨0, 10⟩ "x" []).set 0 5 "y" = .ok (Entry.mk ⟨0, 10⟩ "x" [], PyVal.none) ∧
    (Entry.mk ⟨3, 7⟩ "x" []).set 3 7 "y" = .error .attributeError :=
  ⟨c6_set_raises_attribute_error.2.2.2.2.1 (Entry.mk ⟨0, 10⟩ "x" []) 0 5 "y" (by decide) (by decide),
   c6_set_raises_attribute_error.2.2.2.2.2 ⟨3, 7⟩ "x" [] "y" (by decide)⟩

/-- The entry for 0 to 10 valued x used for the validation claim. -/
def exC8 : Entry String :=
  .mk ⟨0, 10⟩ "x" []

/-- Counterexample for claim C8: handing the runtime Entry.set a
malformed bound sequence together with a value does not raise the
InvalidRangeError kind: the call fails with TypeError before any range
check, because the surviving signature takes the endpoints as separate
arguments and the body performs no validation at all. -/
theorem c8_counterexample :
    exC8.setBound [1, 2, 3] "y" = .error .typeError ∧
    exC8.setBound [1, 2, 3] "y" ≠ .error .valueError := by
  refine ⟨rfl, ?_⟩
  intro h
  rw [show exC8.setBound [1, 2, 3] "y" = .error .typeError from rfl] at h
  simp at h

/-- Claim C8 amended: contains and search validate their query at the
boundary, raising the ValueError kind for any argument that is not a
two-element sequence and never raising that kind for a well-formed
two-element integer range; Entry.set performs no such validation, and
its bound-plus-value call shape always fails with TypeError instead. -/
theorem c8_validation_only_in_contains_and_search :
    (∀ (e : Entry String) (q : List Int), q.length ≠ 2 → e.containsQ q = .error .valueError) ∧
    (∀ (e : Entry String) (q : List Int), q.length ≠ 2 → e.search q = .error .valueError) ∧
    (∀ (e : Entry String) (lo hi : Int), e.containsQ [lo, hi] = .ok (e.containsPair lo hi)) ∧
    (∀ (e : Entry String) (lo hi : Int), e.search [lo, hi] ≠ .error .valueError) ∧
    (∀ (e : Entry String) (q : List Int) (v : String), e.setBound q v = .error .typeError) := by
  refine ⟨?_, ?_, fun e lo hi => rfl, fun e lo hi => search_no_valueError e lo hi, fun e q v => rfl⟩
  · intro e q h
    match q with
    | [] => rfl
    | [a] => rfl
    | [a, b] => simp at h
    | a :: b :: c :: rest => rfl
  · intro e q h
    obtain ⟨b0, v0, cs0⟩ := e
    match q with
    | [] => rfl
    | [a] => rfl
    | [a, b] => simp at h
    | a :: b :: c :: rest => rfl

/-- Witness for claim C8: the two validation clauses applied to a
three-element query. -/
theorem c8_witness :
    exC8.containsQ [1, 2, 3] = .error .valueError ∧
    exC8.search [1, 2, 3] = .error .valueError :=
  ⟨c8_validation_only_in_contains_and_search.1 exC8 [1, 2, 3] (by decide),
   c8_validation_only_in_contains_and_search.2.1 exC8 [1, 2, 3] (by decide)⟩

/-- Counterexample for claim C9: the single top-level entry matches the
query (2,3) and resolves it to the stored value 0, but BoundedDict.search
skips that result because 0 is falsy in Python and returns the
caller-supplied default 42 instead, so the outcome does depend on what
the stored value is. -/
theorem c9_counterexample :
    (Entry.mk ⟨0, 10⟩ (0 : Int) []).search [2, 3] = .ok (.val 0) ∧
    exC9.search [2, 3] (.val 42) = .ok (.val 42) ∧
    PyVal.val (0 : Int) ≠ PyVal.val 42 := by
  refine ⟨rfl, rfl, ?_⟩
  simp

/-- Claim C9 amended: BoundedDict.get and BoundedDict.search return the
result of the first top-level entry, in insertion order, whose search
yields a truthy value; a result that is falsy under Python truthiness
(None, zero, an empty string, an empty list) is skipped as if there were
no match, and the caller-supplied default is returned once every entry
has been skipped. -/
theorem c9_search_returns_first_truthy_result :
    (∀ (e : Entry Int) (rest : List (Entry Int)) (k0 k1 : Int) (d r : PyVal Int),
        e.search [k0, k1] = .ok r → r.truthy = true →
        (BoundedDict.mk (e :: rest)).search [k0, k1] d = .ok r) ∧
    (∀ (e : Entry Int) (rest : List (Entry Int)) (k0 k1 : Int) (d r : PyVal Int),
        e.search [k0, k1] = .ok r → r.truthy = false →
        (BoundedDict.mk (e :: rest)).search [k0, k1] d = (BoundedDict.mk rest).search [k0, k1] d) ∧
    (∀ (k0 k1 : Int) (d : PyVal Int), (BoundedDict.mk []).search [k0, k1] d = .ok d) ∧
    (∀ (es : List (Entry Int)) (k0 k1 : Int) (d : PyVal Int),
        (BoundedDict.mk es).get [k0, k1] d = (BoundedDict.mk es).search [k0, k1] d) := by
  refine ⟨?_, ?_, fun k0 k1 d => rfl, fun es k0 k1 d => rfl⟩
  · intro e rest k0 k1 d r h ht
    have hd : (BoundedDict.mk (e :: rest)).search [k0, k1] d = searchEntries (e :: rest) [k0, k1] d := rfl
    rw [hd, searchEntries_cons, h]
    simp [ht]
  · intro e rest k0 k1 d r h ht
    have hd : (BoundedDict.mk (e :: rest)).search [k0, k1] d = searchEntries (e :: rest) [k0, k1] d := rfl
    rw [hd, searchEntries_cons, h]
    simp [ht]
    rfl

/-- Witness for claim C9: a truthy first result is returned, and a falsy
first result makes the search fall through to the rest of the entry
list. -/
theorem c9_witness :
    (BoundedDict.mk [Entry.mk ⟨0, 10⟩ (7 : Int) []]).search [2, 3] (.val 42) = .ok (.val 7) ∧
    (BoundedDict.mk [Entry.mk ⟨0, 10⟩ (0 : Int) []]).search [2, 3] (.val 42)
      = (BoundedDict.mk ([] : List (Entry Int))).search [2, 3] (.val 42) :=
  ⟨c9_search_returns_first_truthy_result.1 (Entry.mk ⟨0, 10⟩ 7 []) [] 2 3 (.val 42) (.val 7) rfl rfl,
   c9_search_returns_first_truthy_result.2.1 (Entry.mk ⟨0, 10⟩ 0 []) [] 2 3 (.val 42) (.val 0) rfl rfl⟩

/-- Claim C10: when the search of a child is itself ambiguous and hands
back a list, the parent search raises TypeError while placing that
unhashable list into its candidate set: the child entry exC10child
resolves (20,30) to the two-value list of X and Y, and the root entry
exC10 whose only child it is errors with TypeError on the same query. -/
theorem c10_nested_ambiguity_raises_type_error :
    exC10child.search [20, 30] = .ok (.list [.val "X", .val "Y"]) ∧
    exC10.search [20, 30] = .error .typeError :=
  ⟨rfl, rfl⟩
